import Mathlib

/-!
Verification of the conversational intake and scheduling assistant
(`main.py`, `google_calendar.py`) against its specification.

The Python sources are embedded shallowly:

* pure functions (`classify_intent`, the free-slot loop of
  `get_horarios_disponiveis`) become Lean functions;
* times of day are minutes after midnight (`Nat`); calendar timestamps are a
  `DataHora` record of year/month/day/hour/minute, mirroring the fields of the
  Python `datetime` values the code manipulates;
* the SQLite database and the Google calendar become explicit state records
  threaded through the operations; the outcome of each external effect
  (credential load, event insertion, row insertion, event deletion, the
  natural-language date parser) is injected as an explicit parameter, since
  those collaborators are outside the repository;
* `raise`/`except` control flow becomes `Except` values.
-/

/-! ## Intent classifier (`main.py`, `classify_intent`) -/

/-- Lower-casing of one character as `str.lower` performs it, restricted to
ASCII plus the accented Latin capitals that can occur in Portuguese input
(the only letters relevant to the fixed keyword sets). -/
def minusculaChar (c : Char) : Char :=
  if c = 'Á' then 'á' else if c = 'À' then 'à' else if c = 'Â' then 'â'
  else if c = 'Ã' then 'ã' else if c = 'É' then 'é' else if c = 'Ê' then 'ê'
  else if c = 'Í' then 'í' else if c = 'Ó' then 'ó' else if c = 'Ô' then 'ô'
  else if c = 'Õ' then 'õ' else if c = 'Ú' then 'ú' else if c = 'Ü' then 'ü'
  else if c = 'Ç' then 'ç' else c.toLower

/-- `text.lower()`. -/
def minusculas (s : String) : String :=
  ⟨s.data.map minusculaChar⟩

/-- Python's substring test `agulha in alvo`, on character lists. -/
def contemSub (agulha alvo : List Char) : Bool :=
  alvo.tails.any fun t => agulha.isPrefixOf t

/-- Python's substring test `agulha in alvo`, on strings. -/
def contemSubStr (agulha alvo : String) : Bool :=
  contemSub agulha.data alvo.data

def agendamento_keywords : List String :=
  ["marcar", "agendar", "agendamento", "consulta", "horário", "horario"]

def orcamento_keywords : List String :=
  ["preço", "preco", "valor", "quanto", "custa", "custo"]

def saudacao_keywords : List String :=
  ["oi", "olá", "ola", "bom dia", "boa tarde", "boa noite", "e aí", "tudo bem"]

/-- The classifier's result, the `{"intent": ..., "confidence": ...}` dict.
The confidence literals 0.0, 0.3, 0.9 are represented exactly in `ℚ`. -/
structure IntentResult where
  intent : String
  confidence : ℚ
deriving DecidableEq

/-- `classify_intent` from `main.py`: empty text is unknown with confidence 0;
otherwise the lowered text is tested against the three keyword lists in
order, first match winning with confidence 0.9; no match is unknown with
confidence 0.3. -/
def classify_intent (text : String) : IntentResult :=
  if text = "" then ⟨"UNKNOWN", 0⟩
  else
    let t := minusculas text
    if agendamento_keywords.any fun k => contemSubStr k t then
      ⟨"SCHEDULE_APPOINTMENT", 9/10⟩
    else if orcamento_keywords.any fun k => contemSubStr k t then
      ⟨"REQUEST_PRICE", 9/10⟩
    else if saudacao_keywords.any fun k => contemSubStr k t then
      ⟨"GREETING", 9/10⟩
    else ⟨"UNKNOWN", 3/10⟩

/-- The keyword taxonomy in the precedence order the specification states:
scheduling, then price, then greeting. -/
def conjuntosDePalavras : List (List String × String) :=
  [(agendamento_keywords, "SCHEDULE_APPOINTMENT"),
   (orcamento_keywords, "REQUEST_PRICE"),
   (saudacao_keywords, "GREETING")]

/-- Modelled from the spec (§4.1): first-match-wins classification over the
ordered keyword sets, for comparison with `classify_intent`. -/
def classifySpec (text : String) : IntentResult :=
  if text = "" then ⟨"UNKNOWN", 0⟩
  else
    match conjuntosDePalavras.find? (fun c =>
        c.1.any fun k => contemSubStr k (minusculas text)) with
    | some c => ⟨c.2, 9/10⟩
    | none => ⟨"UNKNOWN", 3/10⟩

/-! ## Availability calculator (`google_calendar.py`, `get_horarios_disponiveis`) -/

/-- A busy interval on the external calendar, start and end as minutes after
midnight of the requested day (the code compares the parsed `dateTime`
values only by order, so minutes are a faithful carrier). -/
structure Evento where
  inicio : Nat
  fim : Nat
deriving DecidableEq

/-- 9:00, the opening of the search window (`time_min`). -/
def inicioJanela : Nat := 9 * 60

/-- 18:00, the close of the search window (`time_max`). -/
def fimJanela : Nat := 18 * 60

/-- `duracao_consulta = timedelta(hours=1)` in minutes. -/
def duracaoConsulta : Nat := 60

/-- The per-slot conflict test: the slot `[atual, atual+1h)` is free iff for
every existing event `not (proximo <= evento_inicio or atual >= evento_fim)`
fails to mark it busy, exactly as the inner `for`/`break` loop does. -/
def estaLivre (eventos : List Evento) (atual : Nat) : Bool :=
  let proximo := atual + duracaoConsulta
  eventos.all fun e => decide (proximo ≤ e.inicio) || decide (atual ≥ e.fim)

/-- The `while horario_atual < fim_do_dia` loop.  The extra `combustivel`
argument only bounds the number of iterations so the recursion is
structural: each pass advances `atual` by a positive hour, so starting the
loop with `fim - atual` units can never exhaust it, and the function
computes exactly what the source loop computes. -/
def horariosLoop (eventos : List Evento) (fim : Nat) :
    Nat → Nat → List Nat
  | 0, _ => []
  | combustivel + 1, atual =>
    if atual < fim then
      (if estaLivre eventos atual then [atual] else []) ++
        horariosLoop eventos fim combustivel (atual + duracaoConsulta)
    else []

/-- The free-slot computation of `get_horarios_disponiveis`: slot start
times, in minutes, from `atual` to `fim`. -/
def horariosLivres (eventos : List Evento) (atual fim : Nat) : List Nat :=
  horariosLoop eventos fim (fim - atual) atual

/-- `horario_atual.strftime(str_HM)`. -/
def formatarHorario (t : Nat) : String :=
  (if t / 60 < 10 then "0" ++ toString (t / 60) else toString (t / 60)) ++ ":" ++
  (if t % 60 < 10 then "0" ++ toString (t % 60) else toString (t % 60))

/-- The failure the `googleapiclient` raises on a calendar outage. -/
inductive HttpErro
  | httpError
deriving DecidableEq

/-- `get_horarios_disponiveis`: on a successful listing, the free one-hour
slot starts between 9:00 and 18:00 formatted as `HH:MM`; on `HttpError`
the exception is swallowed and the empty list returned. -/
def get_horarios_disponiveis (lista : Except HttpErro (List Evento)) : List String :=
  match lista with
  | .ok eventos => (horariosLivres eventos inicioJanela fimJanela).map formatarHorario
  | .error _ => []

/-! ### Facts about the slot loop -/

theorem estaLivre_false_iff (eventos : List Evento) (t : Nat) :
    estaLivre eventos t = false ↔
      ∃ e ∈ eventos, t < e.fim ∧ t + duracaoConsulta > e.inicio := by
  simp only [estaLivre, List.all_eq_true, decide_eq_true_eq, Bool.or_eq_true,
    Bool.eq_false_iff, ne_eq]
  constructor
  · intro h
    by_contra hc
    push_neg at hc
    exact h fun e he => by
      rcases Nat.lt_or_ge (e.inicio) (t + duracaoConsulta) with h1 | h1
      · exact Or.inr (by have := hc e he; omega)
      · exact Or.inl (by omega)
  · rintro ⟨e, he, h1, h2⟩ hall
    rcases hall e he with h3 | h3 <;> omega

theorem mem_horariosLoop {eventos : List Evento} {fim : Nat} :
    ∀ {n atual t : Nat}, t ∈ horariosLoop eventos fim n atual →
      atual ≤ t ∧ t < fim ∧ estaLivre eventos t = true := by
  intro n
  induction n with
  | zero => intro atual t ht; simp [horariosLoop] at ht
  | succ n ih =>
    intro atual t ht
    rw [horariosLoop] at ht
    by_cases h : atual < fim
    · simp only [h, if_true, List.mem_append] at ht
      rcases ht with ht | ht
      · by_cases hl : estaLivre eventos atual = true
        · simp [hl] at ht
          subst ht
          exact ⟨Nat.le_refl _, h, hl⟩
        · simp [Bool.eq_false_iff.mpr hl] at ht
      · have := ih ht
        refine ⟨by omega, this.2.1, this.2.2⟩
    · simp [h] at ht

theorem horariosLoop_sorted (eventos : List Evento) (fim : Nat) :
    ∀ n atual, (horariosLoop eventos fim n atual).Sorted (· < ·) := by
  intro n
  induction n with
  | zero => intro atual; simp [horariosLoop]
  | succ n ih =>
    intro atual
    rw [horariosLoop]
    by_cases h : atual < fim
    · simp only [h, if_true]
      by_cases hl : estaLivre eventos atual = true
      · simp only [hl, if_true, List.singleton_append, List.sorted_cons]
        refine ⟨fun b hb => ?_, ih _⟩
        have := mem_horariosLoop hb
        simp only [duracaoConsulta] at this
        omega
      · simp only [Bool.eq_false_iff.mpr hl, if_false, List.nil_append]
        exact ih _
    · simp [h]

/-! ## Claims about the classifier and the availability calculator -/

/-- C4: `classify_intent` is a pure total function returning `(UNKNOWN, 0)`
on empty text, and otherwise performing case-insensitive substring matching
against the fixed keyword sets in the precedence order scheduling, price,
greeting, first match winning with the constant confidence 0.9, and no
match yielding `(UNKNOWN, 0.3)` — i.e. it coincides everywhere with the
first-match-wins classifier written from the specification. -/
theorem classify_intent_refina_spec :
    ∀ t, classify_intent t = classifySpec t := by
  intro t
  by_cases h : t = ""
  · simp [classify_intent, classifySpec, h]
  · rcases h1 : agendamento_keywords.any fun k => contemSubStr k (minusculas t) <;>
      rcases h2 : orcamento_keywords.any fun k => contemSubStr k (minusculas t) <;>
        rcases h3 : saudacao_keywords.any fun k => contemSubStr k (minusculas t) <;>
          simp [classify_intent, classifySpec, conjuntosDePalavras, List.find?, h, h1, h2, h3]

/-- C5: no slot returned by the free-slot computation overlaps a busy
interval — a slot `t` is blocked exactly when `t < busy.fim` and
`t + 1h > busy.inicio` for some busy interval; a candidate that merely
touches a busy interval at a boundary (10:00–11:00 against 11:00–12:00) is
free; and a single busy interval 12:00–13:00 excludes exactly the 12:00
slot from the nine. -/
theorem horarios_sem_sobreposicao :
    (∀ eventos atual fim t, t ∈ horariosLivres eventos atual fim →
      ∀ e ∈ eventos, ¬(t < e.fim ∧ t + duracaoConsulta > e.inicio)) ∧
    (∀ eventos t, estaLivre eventos t = false ↔
      ∃ e ∈ eventos, t < e.fim ∧ t + duracaoConsulta > e.inicio) ∧
    estaLivre [⟨11 * 60, 12 * 60⟩] (10 * 60) = true ∧
    get_horarios_disponiveis (.ok [⟨12 * 60, 13 * 60⟩]) =
      ["09:00", "10:00", "11:00", "13:00", "14:00", "15:00", "16:00", "17:00"] := by
  refine ⟨?_, estaLivre_false_iff, by decide, by decide⟩
  intro eventos atual fim t ht e he hover
  have hl := (mem_horariosLoop ht).2.2
  have hf := (estaLivre_false_iff eventos t).mpr ⟨e, he, hover⟩
  rw [hl] at hf
  exact Bool.noConfusion hf

/-- C5 witness: the theorem applied at the busy interval 12:00–13:00 and
the returned 9:00 slot. -/
theorem horarios_sem_sobreposicao_aplicado :
    ¬(9 * 60 < 13 * 60 ∧ 9 * 60 + duracaoConsulta > 12 * 60) :=
  horarios_sem_sobreposicao.1 [⟨12 * 60, 13 * 60⟩] inicioJanela fimJanela (9 * 60)
    (by decide) ⟨12 * 60, 13 * 60⟩ (by decide)

/-- C6: with no busy intervals the 9:00–18:00 window yields exactly the
nine one-hour slots 09:00 through 17:00; the slots are always emitted in
chronological order; and no emitted slot starts at or after the window
close. -/
theorem dia_vazio_nove_horarios :
    get_horarios_disponiveis (.ok []) =
      ["09:00", "10:00", "11:00", "12:00", "13:00", "14:00", "15:00", "16:00", "17:00"] ∧
    (∀ eventos atual fim, (horariosLivres eventos atual fim).Sorted (· < ·)) ∧
    (∀ eventos t, t ∈ horariosLivres eventos inicioJanela fimJanela → t < fimJanela) := by
  refine ⟨by decide, fun eventos atual fim => horariosLoop_sorted eventos fim _ _, ?_⟩
  intro eventos t ht
  exact (mem_horariosLoop ht).2.1

/-- C6 witness: the chronological-order and window-bound parts applied to
the empty day and the 9:00 slot. -/
theorem dia_vazio_nove_horarios_aplicado :
    (horariosLivres [] inicioJanela fimJanela).Sorted (· < ·) ∧ 9 * 60 < fimJanela :=
  ⟨dia_vazio_nove_horarios.2.1 [] inicioJanela fimJanela,
   dia_vazio_nove_horarios.2.2 [] (9 * 60) (by decide)⟩

/-! ## Data model (`main.py`: `Paciente`, `Agendamento`, the request bodies) -/

/-- A point in calendar time as the code manipulates it: the fields of the
Python `datetime` value produced by `strptime(s, fmtDataHora)`. -/
structure DataHora where
  ano : Nat
  mes : Nat
  dia : Nat
  hora : Nat
  minuto : Nat
deriving DecidableEq

/-- The Gregorian leap-year rule `calendar.isleap` / `datetime` uses. -/
def bissexto (ano : Nat) : Bool :=
  (ano % 4 == 0 && ano % 100 != 0) || ano % 400 == 0

def diasNoMes (ano mes : Nat) : Nat :=
  if mes = 2 then (if bissexto ano then 29 else 28)
  else if mes = 4 ∨ mes = 6 ∨ mes = 9 ∨ mes = 11 then 30
  else 31

/-- `inicio + timedelta(hours=1)`, with rollover across day, month and year
boundaries as `datetime` arithmetic performs it. -/
def DataHora.maisUmaHora (t : DataHora) : DataHora :=
  if t.hora < 23 then { t with hora := t.hora + 1 }
  else if t.dia < diasNoMes t.ano t.mes then { t with hora := 0, dia := t.dia + 1 }
  else if t.mes < 12 then { t with hora := 0, dia := 1, mes := t.mes + 1 }
  else { t with hora := 0, dia := 1, mes := 1, ano := t.ano + 1 }

def digito (c : Char) : Option Nat :=
  if c.isDigit then some (c.toNat - 48) else none

/-- `datetime.strptime(s, fmt)` for the format `AAAA-MM-DD HH:MM` on its
canonical zero-padded form: sixteen characters, digits in the numeric
positions, and each component within `datetime`'s validity range (year at
least 1, day bounded by the month's length, hour below 24, minute below
60); any violation raises `ValueError`, modelled as `none`. -/
def parseDataHora (s : String) : Option DataHora :=
  match s.data with
  | [a1, a2, a3, a4, '-', m1, m2, '-', d1, d2, ' ', h1, h2, ':', n1, n2] =>
    match digito a1, digito a2, digito a3, digito a4, digito m1, digito m2,
          digito d1, digito d2, digito h1, digito h2, digito n1, digito n2 with
    | some x1, some x2, some x3, some x4, some y1, some y2, some z1, some z2,
      some u1, some u2, some v1, some v2 =>
      let ano := ((x1 * 10 + x2) * 10 + x3) * 10 + x4
      let mes := y1 * 10 + y2
      let dia := z1 * 10 + z2
      let hora := u1 * 10 + u2
      let minuto := v1 * 10 + v2
      if 1 ≤ ano ∧ 1 ≤ mes ∧ mes ≤ 12 ∧ 1 ≤ dia ∧ dia ≤ diasNoMes ano mes ∧
          hora ≤ 23 ∧ minuto ≤ 59 then
        some ⟨ano, mes, dia, hora, minuto⟩
      else none
    | _, _, _, _, _, _, _, _, _, _, _, _ => none
  | _ => none

/-- A row of the `paciente` table.  These five columns are the whole of the
persisted record: the model declares no column for a pending booking
context. -/
structure Paciente where
  id : Nat
  sender_id : String
  nome_completo : Option String
  data_criacao : Nat
  estado_conversa : Option String
deriving DecidableEq

/-- A row of the `agendamento` table. -/
structure Agendamento where
  id : Nat
  paciente_id : Nat
  data_hora_inicio : DataHora
  data_hora_fim : DataHora
  status : String
  id_evento_google : Option Nat
deriving DecidableEq

/-- The body of `POST /agendamentos`. -/
structure AgendamentoRequest where
  sender_id_limpo : String
  data_hora_str : String
deriving DecidableEq

/-- The local SQLite database: both tables plus the autoincrement
counters. -/
structure DBState where
  pacientes : List Paciente
  agendamentos : List Agendamento
  proximoPacienteId : Nat
  proximoAgendamentoId : Nat
deriving DecidableEq

/-- An event as stored on the external Google calendar. -/
structure EventoGoogle where
  id : Nat
  summary : String
  inicio : DataHora
  fim : DataHora
deriving DecidableEq

/-- The external calendar: the events present plus the id the service will
assign to the next inserted event (the service mints a fresh id per
insertion). -/
structure CalendarState where
  proximoId : Nat
  eventos : List EventoGoogle
deriving DecidableEq

/-- The sharable link the calendar service attaches to an event. -/
def linkEvento (n : Nat) : String := "https://calendar.google.com/event/" ++ toString n

/-- Python's `x or default` on an optional string: `None` and the empty
string are falsy. -/
def pyOuStr (s : Option String) (padrao : String) : String :=
  match s with
  | some v => if v = "" then padrao else v
  | none => padrao

/-- Python's truthiness of an optional string field. -/
def pyVerdadeiroStr (s : Option String) : Bool :=
  match s with
  | some v => v ≠ ""
  | none => false

/-- `session.exec(select(Paciente).where(sender_id == s)).first()`. -/
def encontrarPaciente (db : DBState) (s : String) : Option Paciente :=
  db.pacientes.find? fun p => p.sender_id == s

/-- `session.add(paciente); session.commit()` for an already-existing row:
the row with the same primary key is replaced. -/
def atualizarPaciente (db : DBState) (p : Paciente) : DBState :=
  { db with pacientes := db.pacientes.map fun q => if q.id = p.id then p else q }

/-! ## External-effect outcomes

The credential file, the calendar service and the SQLite engine are outside
the repository; each call's success or failure is injected as a flag, and a
failing local insert carries the driver's message text. -/

structure ResultadoExterno where
  authOk : Bool
  createOk : Bool
  insertOk : Bool
  deleteOk : Bool
  insertErrMsg : String
deriving DecidableEq

/-- `criar_evento` from `google_calendar.py`: on success the service stores
a fresh event and returns it; on `HttpError` the function swallows the
exception and returns `None`. -/
def criar_evento (cal : CalendarState) (ok : Bool) (titulo : String)
    (data_hora_inicio data_hora_fim : DataHora) : Option EventoGoogle × CalendarState :=
  if ok then
    let ev : EventoGoogle := ⟨cal.proximoId, titulo, data_hora_inicio, data_hora_fim⟩
    (some ev, ⟨cal.proximoId + 1, cal.eventos ++ [ev]⟩)
  else (none, cal)

/-- `service.events().delete(calendarId, eventId).execute()`: on success the
event disappears from the calendar; on failure an exception is raised
(returned here as `false`) and the calendar is unchanged. -/
def deletarEvento (cal : CalendarState) (ok : Bool) (evId : Nat) : Bool × CalendarState :=
  if ok then (true, { cal with eventos := cal.eventos.filter fun e => e.id ≠ evId })
  else (false, cal)

/-! ## The booking transaction (`main.py`, `criar_agendamento`) -/

/-- `str(e)` for a FastAPI/Starlette `HTTPException`: the library renders
it as the status code, a colon-space, and the detail. -/
def strHTTPException (status : Nat) (detail : String) : String :=
  toString status ++ ": " ++ detail

/-- The specification's error taxonomy (§7), which classifies each failure
of `criar_agendamento` by the raise site that originated it.  The
`compensationFailed` kind exists in the taxonomy but no raise site of the
source maps to it.  The carried detail is the `detail` string of the
`HTTPException` the caller finally receives — for the calendar and
persistence kinds that is the re-wrap the endpoint's outer generic
exception handler builds, but the constructor still names the failure the
wrap encloses. -/
inductive ErroAPI
  | notFound (detail : String)
  | invalidInput (detail : String)
  | calendarError (detail : String)
  | persistenceError (detail : String)
  | compensationFailed (detail : String)
  | internalError (detail : String)
deriving DecidableEq

/-- The `detail` string carried by the raised `HTTPException`. -/
def ErroAPI.detail : ErroAPI → String
  | .notFound d => d
  | .invalidInput d => d
  | .calendarError d => d
  | .persistenceError d => d
  | .compensationFailed d => d
  | .internalError d => d

/-- The HTTP status code of the `HTTPException` each kind models: the
missing patient is a 404, the unparseable date-time string a 400, and
every other raise site a 500. -/
def ErroAPI.status : ErroAPI → Nat
  | .notFound _ => 404
  | .invalidInput _ => 400
  | .calendarError _ => 500
  | .persistenceError _ => 500
  | .compensationFailed _ => 500
  | .internalError _ => 500

/-- The success body of `POST /agendamentos`. -/
structure RespostaAgendamento where
  detalhes : String
  evento_id : Nat
  link_evento : String
deriving DecidableEq

/-- Everything a call to `criar_agendamento` produces: the HTTP result, the
database and calendar afterwards, and how many delete calls were issued
against the external calendar during compensation. -/
structure ReservaResultado where
  result : Except ErroAPI RespostaAgendamento
  db : DBState
  cal : CalendarState
  tentativasDeletar : Nat

/-- `criar_agendamento` from `main.py`, step for step:
look the patient up by cleaned sender id (a 404 raised before the
transaction's `try`, so never re-wrapped); parse the date-time string (the
`ValueError` is caught by the endpoint's `except ValueError` and surfaced
as a 400, also un-wrapped); authenticate and create the external event,
any failure there raising a 500 whose detail is the calendar-error
message; insert the local `Agendamento` row; if that insert fails, roll
back, attempt exactly one delete of the just-created external event — a
failure of that delete is only printed — and raise the 500 carrying the
persistence message; on success return the event id and link.

The `HTTPException`s raised for the calendar and persistence failures are
raised inside the endpoint's outer `try`, so its final generic
`except Exception` re-catches them and re-raises a 500 whose detail
prefixes `str(e)` of the caught exception with the internal-error text;
the details below therefore carry that wrap, while the error kind still
names the originating failure. -/
def criar_agendamento (request : AgendamentoRequest) (ext : ResultadoExterno)
    (db : DBState) (cal : CalendarState) : ReservaResultado :=
  match encontrarPaciente db request.sender_id_limpo with
  | none =>
    ⟨.error (.notFound ("Paciente não encontrado para o sender_id: " ++ request.sender_id_limpo)),
      db, cal, 0⟩
  | some paciente =>
    match parseDataHora request.data_hora_str with
    | none =>
      ⟨.error (.invalidInput ("Formato de data/hora inválido. Use o formato AAAA-MM-DD HH:MM. Erro: Formato de data/hora inválido: "
          ++ request.data_hora_str ++ ". Use o formato AAAA-MM-DD HH:MM")), db, cal, 0⟩
    | some inicio =>
      let fim := inicio.maisUmaHora
      if ext.authOk = false then
        ⟨.error (.calendarError ("Erro interno ao criar agendamento: " ++ strHTTPException 500
            "Erro ao criar evento no Google Calendar: Arquivo de credenciais não encontrado ou inválido.")),
          db, cal, 0⟩
      else
        let titulo := "Consulta - " ++ pyOuStr paciente.nome_completo "Novo Paciente"
        match criar_evento cal ext.createOk titulo inicio fim with
        | (none, cal1) =>
          ⟨.error (.calendarError ("Erro interno ao criar agendamento: " ++ strHTTPException 500
              ("Erro ao criar evento no Google Calendar: " ++ strHTTPException 500
                "Falha ao criar evento no Google Calendar: Nenhum evento retornado"))),
            db, cal1, 0⟩
        | (some evento_google, cal1) =>
          if ext.insertOk then
            let novo : Agendamento :=
              ⟨db.proximoAgendamentoId, paciente.id, inicio, fim, "confirmado", some evento_google.id⟩
            ⟨.ok ⟨"Agendamento para " ++ pyOuStr paciente.nome_completo "None" ++ " criado para "
                ++ request.data_hora_str ++ ".", evento_google.id, linkEvento evento_google.id⟩,
              { db with agendamentos := db.agendamentos ++ [novo],
                        proximoAgendamentoId := db.proximoAgendamentoId + 1 },
              cal1, 0⟩
          else
            let apagado := deletarEvento cal1 ext.deleteOk evento_google.id
            ⟨.error (.persistenceError ("Erro interno ao criar agendamento: " ++ strHTTPException 500
                ("Erro ao salvar agendamento no banco de dados: " ++ ext.insertErrMsg))),
              db, apagado.2, 1⟩

/-- All external calls succeed. -/
def extTudoOk : ResultadoExterno := ⟨true, true, true, true, ""⟩

/-! ## Claims about the booking transaction -/

def pacExemplo : Paciente := ⟨1, "5511999999999", some "Ana Lima", 0, none⟩

def dbExemplo : DBState := ⟨[pacExemplo], [], 2, 1⟩

def calVazio : CalendarState := ⟨1, []⟩

def reqExemplo : AgendamentoRequest := ⟨"5511999999999", "2025-06-16 10:00"⟩

/-- Local insert fails and the compensating delete fails too. -/
def extFalhaTotal : ResultadoExterno := ⟨true, true, false, false, "disk I/O error"⟩

/-- C1 counterexample: with the local write and the compensating delete both
failing, the error surfaced to the caller is the original persistence
failure — re-wrapped by the endpoint's generic exception handler into the
internal-error detail — and not `CompensationFailed`, which no path of the
code produces; the delete is indeed attempted exactly once. -/
theorem compensacao_nao_gera_erro_proprio :
    (criar_agendamento reqExemplo extFalhaTotal dbExemplo calVazio).tentativasDeletar = 1 ∧
    (criar_agendamento reqExemplo extFalhaTotal dbExemplo calVazio).result =
      .error (.persistenceError "Erro interno ao criar agendamento: 500: Erro ao salvar agendamento no banco de dados: disk I/O error") := by
  exact ⟨rfl, rfl⟩

/-- C1 as amended: whenever the external event was created and the local
write fails, exactly one delete call is attempted against the external
calendar, with no retry, and — whether or not that delete succeeds — the
error surfaced to the caller is the original persistence failure, its
detail re-wrapped by the endpoint's generic exception handler into
`Erro interno ao criar agendamento: 500: Erro ao salvar agendamento no
banco de dados: …`, never a `CompensationFailed`; the local database is
left unchanged by the rollback. -/
theorem compensacao_uma_tentativa (request : AgendamentoRequest) (ext : ResultadoExterno)
    (db : DBState) (cal : CalendarState) (p : Paciente) (inicio : DataHora)
    (hfind : encontrarPaciente db request.sender_id_limpo = some p)
    (hparse : parseDataHora request.data_hora_str = some inicio)
    (hauth : ext.authOk = true) (hcreate : ext.createOk = true)
    (hinsert : ext.insertOk = false) :
    (criar_agendamento request ext db cal).tentativasDeletar = 1 ∧
    (criar_agendamento request ext db cal).result =
      .error (.persistenceError ("Erro interno ao criar agendamento: " ++ strHTTPException 500
        ("Erro ao salvar agendamento no banco de dados: " ++ ext.insertErrMsg))) ∧
    (criar_agendamento request ext db cal).db = db := by
  simp [criar_agendamento, hfind, hparse, hauth, hcreate, hinsert, criar_evento]

/-- C1 witness: the amended theorem applied at a concrete patient, request
and failing insert whose compensating delete succeeds. -/
theorem compensacao_uma_tentativa_aplicado :
    (criar_agendamento reqExemplo ⟨true, true, false, true, "locked"⟩ dbExemplo calVazio).tentativasDeletar = 1 ∧
    (criar_agendamento reqExemplo ⟨true, true, false, true, "locked"⟩ dbExemplo calVazio).result =
      .error (.persistenceError ("Erro interno ao criar agendamento: " ++ strHTTPException 500
        ("Erro ao salvar agendamento no banco de dados: " ++ (ResultadoExterno.mk true true false true "locked").insertErrMsg))) ∧
    (criar_agendamento reqExemplo ⟨true, true, false, true, "locked"⟩ dbExemplo calVazio).db = dbExemplo :=
  compensacao_uma_tentativa reqExemplo ⟨true, true, false, true, "locked"⟩ dbExemplo calVazio
    pacExemplo ⟨2025, 6, 16, 10, 0⟩ (by decide) (by decide) rfl rfl rfl

/-- A fully successful pass through `criar_agendamento`: the event is
created under the calendar's next id, the row is appended under the local
autoincrement id, and no compensation runs. -/
theorem criar_agendamento_sucesso (request : AgendamentoRequest) (ext : ResultadoExterno)
    (db : DBState) (cal : CalendarState) (p : Paciente) (inicio : DataHora)
    (hfind : encontrarPaciente db request.sender_id_limpo = some p)
    (hparse : parseDataHora request.data_hora_str = some inicio)
    (hauth : ext.authOk = true) (hcreate : ext.createOk = true)
    (hinsert : ext.insertOk = true) :
    criar_agendamento request ext db cal =
      ⟨.ok ⟨"Agendamento para " ++ pyOuStr p.nome_completo "None" ++ " criado para "
            ++ request.data_hora_str ++ ".", cal.proximoId, linkEvento cal.proximoId⟩,
        { db with
            agendamentos := db.agendamentos ++
              [⟨db.proximoAgendamentoId, p.id, inicio, inicio.maisUmaHora, "confirmado",
                some cal.proximoId⟩],
            proximoAgendamentoId := db.proximoAgendamentoId + 1 },
        ⟨cal.proximoId + 1,
          cal.eventos ++
            [⟨cal.proximoId, "Consulta - " ++ pyOuStr p.nome_completo "Novo Paciente",
              inicio, inicio.maisUmaHora⟩]⟩,
        0⟩ := by
  simp [criar_agendamento, hfind, hparse, hauth, hcreate, hinsert, criar_evento]

/-- C7: calling the booking transaction twice with an identical request is
not idempotent — both calls succeed, the external calendar gains two events
with distinct ids, and the local store gains two appointment rows for the
same patient and start time, with no deduplication. -/
theorem reserva_dupla_nao_idempotente (request : AgendamentoRequest)
    (db : DBState) (cal : CalendarState) (p : Paciente) (inicio : DataHora)
    (hfind : encontrarPaciente db request.sender_id_limpo = some p)
    (hparse : parseDataHora request.data_hora_str = some inicio) :
    (∃ a, (criar_agendamento request extTudoOk db cal).result = .ok a) ∧
    (∃ b, (criar_agendamento request extTudoOk
        (criar_agendamento request extTudoOk db cal).db
        (criar_agendamento request extTudoOk db cal).cal).result = .ok b) ∧
    (criar_agendamento request extTudoOk
        (criar_agendamento request extTudoOk db cal).db
        (criar_agendamento request extTudoOk db cal).cal).db.agendamentos =
      db.agendamentos ++
        [⟨db.proximoAgendamentoId, p.id, inicio, inicio.maisUmaHora, "confirmado", some cal.proximoId⟩,
         ⟨db.proximoAgendamentoId + 1, p.id, inicio, inicio.maisUmaHora, "confirmado", some (cal.proximoId + 1)⟩] ∧
    (criar_agendamento request extTudoOk
        (criar_agendamento request extTudoOk db cal).db
        (criar_agendamento request extTudoOk db cal).cal).cal.eventos =
      cal.eventos ++
        [⟨cal.proximoId, "Consulta - " ++ pyOuStr p.nome_completo "Novo Paciente", inicio, inicio.maisUmaHora⟩,
         ⟨cal.proximoId + 1, "Consulta - " ++ pyOuStr p.nome_completo "Novo Paciente", inicio, inicio.maisUmaHora⟩] ∧
    cal.proximoId ≠ cal.proximoId + 1 := by
  have h1 := criar_agendamento_sucesso request extTudoOk db cal p inicio hfind hparse rfl rfl rfl
  have hfind2 : encontrarPaciente (criar_agendamento request extTudoOk db cal).db
      request.sender_id_limpo = some p := by
    rw [h1]; exact hfind
  have h2 := criar_agendamento_sucesso request extTudoOk
      (criar_agendamento request extTudoOk db cal).db
      (criar_agendamento request extTudoOk db cal).cal p inicio hfind2 hparse rfl rfl rfl
  rw [h2, h1]
  refine ⟨⟨_, rfl⟩, ⟨_, rfl⟩, by simp, by simp, by omega⟩

/-- C7 witness: the theorem applied at a concrete patient, request and
empty calendar. -/
theorem reserva_dupla_nao_idempotente_aplicado :
    (∃ a, (criar_agendamento reqExemplo extTudoOk dbExemplo calVazio).result = .ok a) ∧
    (∃ b, (criar_agendamento reqExemplo extTudoOk
        (criar_agendamento reqExemplo extTudoOk dbExemplo calVazio).db
        (criar_agendamento reqExemplo extTudoOk dbExemplo calVazio).cal).result = .ok b) ∧
    (criar_agendamento reqExemplo extTudoOk
        (criar_agendamento reqExemplo extTudoOk dbExemplo calVazio).db
        (criar_agendamento reqExemplo extTudoOk dbExemplo calVazio).cal).db.agendamentos =
      dbExemplo.agendamentos ++
        [⟨dbExemplo.proximoAgendamentoId, pacExemplo.id, ⟨2025, 6, 16, 10, 0⟩,
            DataHora.maisUmaHora ⟨2025, 6, 16, 10, 0⟩, "confirmado", some calVazio.proximoId⟩,
         ⟨dbExemplo.proximoAgendamentoId + 1, pacExemplo.id, ⟨2025, 6, 16, 10, 0⟩,
            DataHora.maisUmaHora ⟨2025, 6, 16, 10, 0⟩, "confirmado", some (calVazio.proximoId + 1)⟩] ∧
    (criar_agendamento reqExemplo extTudoOk
        (criar_agendamento reqExemplo extTudoOk dbExemplo calVazio).db
        (criar_agendamento reqExemplo extTudoOk dbExemplo calVazio).cal).cal.eventos =
      calVazio.eventos ++
        [⟨calVazio.proximoId, "Consulta - " ++ pyOuStr pacExemplo.nome_completo "Novo Paciente",
            ⟨2025, 6, 16, 10, 0⟩, DataHora.maisUmaHora ⟨2025, 6, 16, 10, 0⟩⟩,
         ⟨calVazio.proximoId + 1, "Consulta - " ++ pyOuStr pacExemplo.nome_completo "Novo Paciente",
            ⟨2025, 6, 16, 10, 0⟩, DataHora.maisUmaHora ⟨2025, 6, 16, 10, 0⟩⟩] ∧
    calVazio.proximoId ≠ calVazio.proximoId + 1 :=
  reserva_dupla_nao_idempotente reqExemplo dbExemplo calVazio pacExemplo
    ⟨2025, 6, 16, 10, 0⟩ (by decide) (by decide)

/-! ## Conversation engine (`main.py`: the `ferramenta_*` tools and `agente_router`)

The natural-language date parser (`dateparser`, wrapped by
`parse_human_date`) is an external black box, so its output for the turn's
message is injected, as are the calendar listing for the resolved day and
the external outcomes of a booking. -/

/-- The `date` object `parse_human_date` returns. -/
structure DataCal where
  ano : Nat
  mes : Nat
  dia : Nat
deriving DecidableEq

def pad2 (n : Nat) : String := if n < 10 then "0" ++ toString n else toString n

def pad4 (n : Nat) : String :=
  if n < 10 then "000" ++ toString n
  else if n < 100 then "00" ++ toString n
  else if n < 1000 then "0" ++ toString n
  else toString n

/-- `data.isoformat()`. -/
def DataCal.isoformat (d : DataCal) : String :=
  pad4 d.ano ++ "-" ++ pad2 d.mes ++ "-" ++ pad2 d.dia

/-- `data.strftime` with day slash month. -/
def DataCal.diaMes (d : DataCal) : String :=
  pad2 d.dia ++ "/" ++ pad2 d.mes

/-- The `{"resposta": ..., "proximo_estado": ...}` dict every tool returns. -/
structure Resposta where
  resposta : String
  proximo_estado : Option String
deriving DecidableEq

/-- The runtime exception Python raises when `ferramenta_processar_horario`
reads `paciente.dados_agendamento` on a freshly loaded row: the attribute
is not a column of the `Paciente` model, so a patient loaded by a later
request does not have it. -/
inductive ExcecaoPython
  | attributeError
deriving DecidableEq

/-- `str(e)` for that exception. -/
def excecaoStr : ExcecaoPython → String
  | .attributeError => "\x27Paciente\x27 object has no attribute \x27dados_agendamento\x27"

/-- Everything injected into one turn of the agent: the black-box date
parser's output for this message, the calendar listing for the resolved
day, the external outcomes of a booking attempt, and the creation clock. -/
structure TurnoExt where
  dataInterpretada : Option DataCal
  listaEventos : Except HttpErro (List Evento)
  reserva : ResultadoExterno
  agora : Nat

/-- `ferramenta_agendar_consulta`: with no flow in progress (a falsy state
or the string `inicio`), move the patient to the awaiting-date state and
prompt for a day; otherwise return `None`. -/
def ferramenta_agendar_consulta (paciente : Paciente) (db : DBState) :
    Option Resposta × DBState :=
  if pyVerdadeiroStr paciente.estado_conversa = false ∨ paciente.estado_conversa = some "inicio" then
    ( some ⟨"Vou te ajudar com o agendamento. Qual o melhor dia para você? (ex: amanhã, dia 15/06)",
        some "aguardando_data_agendamento"⟩,
      atualizarPaciente db { paciente with estado_conversa := some "aguardando_data_agendamento" } )
  else (none, db)

/-- `ferramenta_processar_data`: in the awaiting-date state, resolve the
message through the black-box parser; when a date comes back and the day
has free slots, commit the awaiting-slot-choice state and offer the slots
(the chosen date itself is only assigned to the in-memory object's
`dados_agendamento` attribute, which corresponds to no column of the
`Paciente` row, so it is not part of the committed record); with no slots,
or no parsed date, stay in the awaiting-date state. -/
def ferramenta_processar_data (paciente : Paciente) (_mensagem : String)
    (ext : TurnoExt) (db : DBState) : Option Resposta × DBState :=
  if paciente.estado_conversa = some "aguardando_data_agendamento" then
    match ext.dataInterpretada with
    | some data_desejada =>
      if get_horarios_disponiveis ext.listaEventos ≠ [] then
        ( some ⟨"Ótimo! Para o dia " ++ data_desejada.diaMes ++ ", tenho os seguintes horários: "
              ++ String.intercalate ", " (get_horarios_disponiveis ext.listaEventos)
              ++ ". Qual deles você prefere?",
            some "aguardando_escolha_horario"⟩,
          atualizarPaciente db { paciente with estado_conversa := some "aguardando_escolha_horario" } )
      else
        ( some ⟨"Puxa, não encontrei horários disponíveis para " ++ data_desejada.diaMes
              ++ ". Você gostaria de tentar outra data?", some "aguardando_data_agendamento"⟩,
          db )
    | none =>
      ( some ⟨"Não consegui entender a data. Por favor, tente dizer de outra forma (ex: \x27amanhã\x27, \x27dia 15 de junho\x27 ou \x2715/06\x27).",
          some "aguardando_data_agendamento"⟩,
        db )
  else (none, db)

/-- What `ferramenta_processar_horario` produces: either a Python exception
escaping it, or the tool's optional response, together with the resulting
database, calendar, and compensation delete count. -/
structure HorarioResultado where
  resultado : Except ExcecaoPython (Option Resposta)
  db : DBState
  cal : CalendarState
  tentativasDeletar : Nat

/-- `ferramenta_processar_horario`: in the awaiting-slot-choice state, read
the chosen date from the in-memory `dados_agendamento` attribute (`dados`
is its `data` entry when the attribute exists; on a freshly loaded row it
does not and the read raises `AttributeError`), combine it with the
message into `AAAA-MM-DD HH:MM`, and run the booking transaction; on
success clear the state and confirm; on an `HTTPException` reply with an
apology carrying the exception's detail and keep the state. -/
def ferramenta_processar_horario (paciente : Paciente) (dados : Option String)
    (mensagem : String) (ext : ResultadoExterno) (db : DBState) (cal : CalendarState) :
    HorarioResultado :=
  if paciente.estado_conversa = some "aguardando_escolha_horario" then
    match dados with
    | none => ⟨.error .attributeError, db, cal, 0⟩
    | some data_str =>
      match (criar_agendamento ⟨paciente.sender_id, data_str ++ " " ++ mensagem⟩ ext db cal).result with
      | .ok _ =>
        ⟨.ok (some ⟨"Pronto! Seu agendamento foi confirmado para " ++ (data_str ++ " " ++ mensagem)
            ++ ". Você receberá uma confirmação por e-mail. Até logo!", none⟩),
          atualizarPaciente
            (criar_agendamento ⟨paciente.sender_id, data_str ++ " " ++ mensagem⟩ ext db cal).db
            { paciente with estado_conversa := none },
          (criar_agendamento ⟨paciente.sender_id, data_str ++ " " ++ mensagem⟩ ext db cal).cal,
          (criar_agendamento ⟨paciente.sender_id, data_str ++ " " ++ mensagem⟩ ext db cal).tentativasDeletar⟩
      | .error e =>
        ⟨.ok (some ⟨"Desculpe, houve um erro ao agendar sua consulta: " ++ e.detail,
            some "aguardando_escolha_horario"⟩),
          (criar_agendamento ⟨paciente.sender_id, data_str ++ " " ++ mensagem⟩ ext db cal).db,
          (criar_agendamento ⟨paciente.sender_id, data_str ++ " " ++ mensagem⟩ ext db cal).cal,
          (criar_agendamento ⟨paciente.sender_id, data_str ++ " " ++ mensagem⟩ ext db cal).tentativasDeletar⟩
  else ⟨.ok none, db, cal, 0⟩

/-- `ferramenta_consulta_preco`: a fixed pivot-to-scheduling reply, no
database access. -/
def ferramenta_consulta_preco (_paciente : Paciente) (_mensagem : String) : Resposta :=
  ⟨"Para que eu possa te passar um orçamento preciso e justo, preciso primeiro entender seu caso em uma avaliação clínica. Vamos marcar uma consulta inicial sem compromisso?",
    none⟩

/-- `ferramenta_saudacao`: greet by name when the field is truthy. -/
def ferramenta_saudacao (paciente : Paciente) (_mensagem : String) : Resposta :=
  if pyVerdadeiroStr paciente.nome_completo then
    ⟨"Olá " ++ pyOuStr paciente.nome_completo "" ++ "! Em que posso ajudar você hoje?", none⟩
  else ⟨"Olá! Bem-vindo à nossa clínica. Em que posso ajudar você hoje?", none⟩

/-- `ferramenta_padrao`. -/
def ferramenta_padrao (_paciente : Paciente) (_mensagem : String) : Resposta :=
  ⟨"Não entendi muito bem. Você gostaria de marcar uma consulta ou saber mais sobre nossos serviços?",
    none⟩

/-- The body of `POST /agente`. -/
structure TriageRequest where
  senderId : String
  senderName : Option String
  messageText : String
  timestamp : String
deriving DecidableEq

/-- The characters before the first `@`. -/
def antesDaArroba : List Char → List Char
  | [] => []
  | c :: cs => if c = '@' then [] else c :: antesDaArroba cs

/-- `request.senderId.split(at_sign)[0]`: everything from the first `@`
onward is stripped. -/
def limparSenderId (s : String) : String :=
  ⟨antesDaArroba s.data⟩

/-- The `{"resposta": ..., "nextAction": ...}` body `/agente` answers with. -/
structure RouterResponse where
  resposta : String
  nextAction : Option String
deriving DecidableEq

/-- Which branch of the router's dispatch handled the turn, mirroring the
`if`/`elif`/`else` chain at the heart of `agente_router`: the new-patient
path, one of the two state handlers, or intent classification with the
classified intent. -/
inductive Rota
  | novoPaciente
  | estadoData
  | estadoHorario
  | intencao (intent : String)
deriving DecidableEq

/-- One turn's outcome: the HTTP-level result (an `HTTPException` escaping
to the API caller, or the conversational response body), the database and
calendar afterwards, and the branch taken. -/
structure TurnoResultado where
  resposta : Except ErroAPI RouterResponse
  db : DBState
  cal : CalendarState
  rota : Rota

/-- The tail of `agente_router`: a tool's response dict becomes the reply
body, and a missing result yields the generic apology of the final
fallback. -/
def finalizar (r : Option Resposta) (db : DBState) (cal : CalendarState) (rota : Rota) :
    TurnoResultado :=
  match r with
  | some x => ⟨.ok ⟨x.resposta, x.proximo_estado⟩, db, cal, rota⟩
  | none =>
    ⟨.ok ⟨"Desculpe, tive um problema ao processar sua mensagem. Poderia tentar novamente?", none⟩,
      db, cal, rota⟩

/-- The `else` branch of the router's dispatch: choose a tool from the
classified intent of the message — scheduling, price, greeting, or the
default tool — returning the tool's response together with the database it
leaves behind. -/
def despachoPorIntencao (paciente : Paciente) (mensagem : String) (db : DBState) :
    Option Resposta × DBState :=
  if (classify_intent mensagem).intent = "SCHEDULE_APPOINTMENT" then
    ferramenta_agendar_consulta paciente db
  else if (classify_intent mensagem).intent = "REQUEST_PRICE" then
    (some (ferramenta_consulta_preco paciente mensagem), db)
  else if (classify_intent mensagem).intent = "GREETING" then
    (some (ferramenta_saudacao paciente mensagem), db)
  else
    (some (ferramenta_padrao paciente mensagem), db)

/-- `agente_router` from `main.py`: clean the sender id; create and welcome
an unknown sender; otherwise dispatch on the stored conversation state —
the two flow states go straight to their handlers, and only a patient with
no active flow has the message classified and routed by intent.  A Python
exception escaping a handler (the `AttributeError` of the missing booking
context) is caught by the enclosing handler, the per-turn transaction is
rolled back, and a 500 `HTTPException` is raised to the API caller. -/
def agente_router (request : TriageRequest) (ext : TurnoExt) (db : DBState)
    (cal : CalendarState) : TurnoResultado :=
  match encontrarPaciente db (limparSenderId request.senderId) with
  | none =>
    ⟨.ok ⟨"Olá! Bem-vindo à nossa clínica. Em que posso ajudar você hoje?", some "ask_how_can_help"⟩,
      { db with
          pacientes := db.pacientes ++
            [⟨db.proximoPacienteId, limparSenderId request.senderId, request.senderName,
              ext.agora, none⟩],
          proximoPacienteId := db.proximoPacienteId + 1 },
      cal, .novoPaciente⟩
  | some paciente =>
    if paciente.estado_conversa = some "aguardando_data_agendamento" then
      finalizar (ferramenta_processar_data paciente request.messageText ext db).1
        (ferramenta_processar_data paciente request.messageText ext db).2 cal .estadoData
    else if paciente.estado_conversa = some "aguardando_escolha_horario" then
      match (ferramenta_processar_horario paciente none request.messageText
          ext.reserva db cal).resultado with
      | .error exc =>
        ⟨.error (.internalError ("Erro ao processar a requisição: " ++ excecaoStr exc)),
          (ferramenta_processar_horario paciente none request.messageText ext.reserva db cal).db,
          (ferramenta_processar_horario paciente none request.messageText ext.reserva db cal).cal,
          .estadoHorario⟩
      | .ok r =>
        finalizar r
          (ferramenta_processar_horario paciente none request.messageText ext.reserva db cal).db
          (ferramenta_processar_horario paciente none request.messageText ext.reserva db cal).cal
          .estadoHorario
    else
      match (despachoPorIntencao paciente request.messageText db).1 with
      | some resp =>
        finalizar (some resp) (despachoPorIntencao paciente request.messageText db).2 cal
          (.intencao (classify_intent request.messageText).intent)
      | none =>
        finalizar (some (ferramenta_padrao paciente request.messageText))
          (despachoPorIntencao paciente request.messageText db).2 cal
          (.intencao (classify_intent request.messageText).intent)

/-- The response model of `POST /triage`; `analysis` carries the dict
payload of the `analysis` field. -/
structure TriageResponse where
  userStatus : String
  analysis : List (String × String)
  nextAction : Option String
  responseText : String
deriving DecidableEq

/-- The compatibility endpoint `POST /triage`: it calls the agent router;
on success it repackages the reply, flagging a new lead by the welcome
text (the `nextAction` key is always present in the router's dict, so the
`get` default never applies); when the router raises, the operator-facing
`analysis` field carries `str(e)` of the exception while `responseText` —
the text delivered on the conversational channel — is the fixed generic
retry message. -/
def triage (request : TriageRequest) (ext : TurnoExt) (db : DBState)
    (cal : CalendarState) : TriageResponse :=
  match (agente_router request ext db cal).resposta with
  | .ok r =>
    ⟨if contemSubStr "Bem-vindo" r.resposta then "new_lead" else "existing_patient",
      [("intent", "PROCESSED_BY_AGENT")], r.nextAction, r.resposta⟩
  | .error e =>
    ⟨"error", [("error", strHTTPException e.status e.detail)], some "error_handling",
      "Desculpe, ocorreu um erro ao processar sua solicitação. Por favor, tente novamente mais tarde."⟩

/-! ### Facts about the engine -/

theorem finalizar_rota (r : Option Resposta) (db : DBState) (cal : CalendarState) (rt : Rota) :
    (finalizar r db cal rt).rota = rt := by
  unfold finalizar
  split <;> rfl

theorem finalizar_db (r : Option Resposta) (db : DBState) (cal : CalendarState) (rt : Rota) :
    (finalizar r db cal rt).db = db := by
  unfold finalizar
  split <;> rfl

theorem mem_atualizarPaciente {db : DBState} {p q : Paciente}
    (h : q ∈ (atualizarPaciente db p).pacientes) : q = p ∨ q ∈ db.pacientes := by
  simp only [atualizarPaciente, List.mem_map] at h
  rcases h with ⟨q0, hq0, hq⟩
  by_cases hid : q0.id = p.id
  · simp only [hid, if_true] at hq
    exact Or.inl hq.symm
  · simp only [hid, if_false] at hq
    subst hq
    exact Or.inr hq0

/-- `ferramenta_processar_data` either leaves the database alone or commits
precisely the awaiting-slot-choice state on the handled patient. -/
theorem ferramenta_processar_data_db (p : Paciente) (m : String) (ext : TurnoExt)
    (db : DBState) :
    (ferramenta_processar_data p m ext db).2 = db ∨
      (ferramenta_processar_data p m ext db).2 =
        atualizarPaciente db { p with estado_conversa := some "aguardando_escolha_horario" } := by
  unfold ferramenta_processar_data
  split
  · split
    · by_cases hh : get_horarios_disponiveis ext.listaEventos ≠ []
      · rw [if_pos hh]
        exact Or.inr rfl
      · rw [if_neg hh]
        exact Or.inl rfl
    · exact Or.inl rfl
  · exact Or.inl rfl

/-- With no in-memory booking context (the only way the router calls it),
`ferramenta_processar_horario` cannot commit anything. -/
theorem ferramenta_processar_horario_none_db (p : Paciente) (m : String)
    (ext : ResultadoExterno) (db : DBState) (cal : CalendarState) :
    (ferramenta_processar_horario p none m ext db cal).db = db := by
  unfold ferramenta_processar_horario
  split <;> rfl

/-- `ferramenta_agendar_consulta` either leaves the database alone or
commits precisely the awaiting-date state on the handled patient. -/
theorem ferramenta_agendar_consulta_db (p : Paciente) (db : DBState) :
    (ferramenta_agendar_consulta p db).2 = db ∨
      (ferramenta_agendar_consulta p db).2 =
        atualizarPaciente db { p with estado_conversa := some "aguardando_data_agendamento" } := by
  unfold ferramenta_agendar_consulta
  split
  · exact Or.inr rfl
  · exact Or.inl rfl

/-- The intent-dispatch branch either leaves the database alone or (through
the scheduling tool) commits precisely the awaiting-date state. -/
theorem despachoPorIntencao_db (p : Paciente) (m : String) (db : DBState) :
    (despachoPorIntencao p m db).2 = db ∨
      (despachoPorIntencao p m db).2 =
        atualizarPaciente db { p with estado_conversa := some "aguardando_data_agendamento" } := by
  unfold despachoPorIntencao
  split
  · exact ferramenta_agendar_consulta_db p db
  · split
    · exact Or.inl rfl
    · split
      · exact Or.inl rfl
      · exact Or.inl rfl

/-- The conversation states of §4.5: the absent/initial state and the two
flow states are the only values the engine ever stores in
`estado_conversa`. -/
def EstadoMaquina (s : Option String) : Prop :=
  s = none ∨ s = some "aguardando_data_agendamento" ∨ s = some "aguardando_escolha_horario"

/-- Every patient row present after a turn either was already present
before the turn or carries one of the machine's states: the engine writes
no other state tag. -/
theorem estados_escritos_validos (request : TriageRequest) (ext : TurnoExt)
    (db : DBState) (cal : CalendarState) :
    ∀ q ∈ (agente_router request ext db cal).db.pacientes,
      q ∈ db.pacientes ∨ EstadoMaquina q.estado_conversa := by
  intro q hq
  unfold agente_router at hq
  split at hq
  · simp only [List.mem_append, List.mem_singleton] at hq
    rcases hq with hq | hq
    · exact Or.inl hq
    · subst hq
      exact Or.inr (Or.inl rfl)
  · rename_i paciente heq
    by_cases hd : paciente.estado_conversa = some "aguardando_data_agendamento"
    · rw [if_pos hd] at hq
      simp only [finalizar_db] at hq
      rcases ferramenta_processar_data_db paciente request.messageText ext db with h | h <;>
        rw [h] at hq
      · exact Or.inl hq
      · rcases mem_atualizarPaciente hq with h2 | h2
        · subst h2
          exact Or.inr (Or.inr (Or.inr rfl))
        · exact Or.inl h2
    · by_cases hh : paciente.estado_conversa = some "aguardando_escolha_horario"
      · rw [if_neg hd, if_pos hh] at hq
        rcases hr : (ferramenta_processar_horario paciente none request.messageText
            ext.reserva db cal).resultado with exc | r <;>
          rw [hr] at hq <;>
            simp only [finalizar_db, ferramenta_processar_horario_none_db] at hq <;>
              exact Or.inl hq
      · rw [if_neg hd, if_neg hh] at hq
        have hcase : ∀ h2 : (despachoPorIntencao paciente request.messageText db).2 = db ∨
            (despachoPorIntencao paciente request.messageText db).2 =
              atualizarPaciente db
                { paciente with estado_conversa := some "aguardando_data_agendamento" },
            q ∈ (despachoPorIntencao paciente request.messageText db).2.pacientes →
              q ∈ db.pacientes ∨ EstadoMaquina q.estado_conversa := by
          rintro (h2 | h2) hmem <;> rw [h2] at hmem
          · exact Or.inl hmem
          · rcases mem_atualizarPaciente hmem with h3 | h3
            · subst h3
              exact Or.inr (Or.inr (Or.inl rfl))
            · exact Or.inl h3
        rcases hf : (despachoPorIntencao paciente request.messageText db).1 with _ | resp <;>
          rw [hf] at hq <;>
            simp only [finalizar_db] at hq <;>
              exact hcase (despachoPorIntencao_db paciente request.messageText db) hq

theorem agente_router_rota_data (request : TriageRequest) (ext : TurnoExt)
    (db : DBState) (cal : CalendarState) (p : Paciente)
    (hfind : encontrarPaciente db (limparSenderId request.senderId) = some p)
    (hs : p.estado_conversa = some "aguardando_data_agendamento") :
    (agente_router request ext db cal).rota = .estadoData := by
  unfold agente_router
  simp only [hfind]
  rw [if_pos hs]
  exact finalizar_rota _ _ _ _

theorem agente_router_rota_horario (request : TriageRequest) (ext : TurnoExt)
    (db : DBState) (cal : CalendarState) (p : Paciente)
    (hfind : encontrarPaciente db (limparSenderId request.senderId) = some p)
    (hs : p.estado_conversa = some "aguardando_escolha_horario") :
    (agente_router request ext db cal).rota = .estadoHorario := by
  unfold agente_router
  simp only [hfind]
  rw [if_neg (by rw [hs]; decide), if_pos hs]
  have hres : (ferramenta_processar_horario p none request.messageText
      ext.reserva db cal).resultado = .error .attributeError := by
    unfold ferramenta_processar_horario
    rw [if_pos hs]
  rw [hres]

/-! ## Claims about the conversation engine -/

/-- C3: for an existing patient whose stored conversation state is one of
the machine's non-`NONE` states, the turn is dispatched to the handler of
that state — never through intent classification — regardless of the
message text; and (second conjunct) the engine never writes any state tag
beyond the machine's three, so those are all the non-`NONE` states an
engine-managed patient can carry. -/
theorem estado_prevalece_sobre_intencao
    (request : TriageRequest) (ext : TurnoExt) (db : DBState) (cal : CalendarState)
    (p : Paciente)
    (hfind : encontrarPaciente db (limparSenderId request.senderId) = some p)
    (hfluxo : p.estado_conversa = some "aguardando_data_agendamento" ∨
              p.estado_conversa = some "aguardando_escolha_horario") :
    ((p.estado_conversa = some "aguardando_data_agendamento" →
        (agente_router request ext db cal).rota = .estadoData) ∧
      (p.estado_conversa = some "aguardando_escolha_horario" →
        (agente_router request ext db cal).rota = .estadoHorario) ∧
      ∀ i, (agente_router request ext db cal).rota ≠ .intencao i) ∧
    (∀ request2 ext2 db2 cal2 q,
        q ∈ (agente_router request2 ext2 db2 cal2).db.pacientes →
          q ∈ db2.pacientes ∨ EstadoMaquina q.estado_conversa) := by
  refine ⟨?_, fun request2 ext2 db2 cal2 => estados_escritos_validos request2 ext2 db2 cal2⟩
  rcases hfluxo with hs | hs
  · have hr := agente_router_rota_data request ext db cal p hfind hs
    refine ⟨fun _ => hr, fun hc => ?_, fun i hi => ?_⟩
    · rw [hs] at hc
      exact absurd hc (by decide)
    · rw [hr] at hi
      exact Rota.noConfusion hi
  · have hr := agente_router_rota_horario request ext db cal p hfind hs
    refine ⟨fun hc => ?_, fun _ => hr, fun i hi => ?_⟩
    · rw [hs] at hc
      exact absurd hc (by decide)
    · rw [hr] at hi
      exact Rota.noConfusion hi

def pacEscolha : Paciente := ⟨1, "5511999999999", some "Ana Lima", 0, some "aguardando_escolha_horario"⟩

def dbEscolha : DBState := ⟨[pacEscolha], [], 2, 1⟩

def reqPreco : TriageRequest := ⟨"5511999999999@c.us", some "Ana Lima", "qual o preço", "2025-06-15T10:05:00Z"⟩

def extNeutro : TurnoExt := ⟨none, .ok [], extTudoOk, 0⟩

/-- C3 witness: a patient awaiting a slot choice who sends a price keyword
is routed to the slot-choice handler. -/
theorem estado_prevalece_sobre_intencao_aplicado :
    (agente_router reqPreco extNeutro dbEscolha calVazio).rota = .estadoHorario :=
  ((estado_prevalece_sobre_intencao reqPreco extNeutro dbEscolha calVazio pacEscolha rfl
      (Or.inr rfl)).1).2.1 rfl

/-- C10: a turn of an existing patient with no flow state whose message
does not classify as scheduling — i.e. a turn handled by the price,
greeting or default tool — leaves the database exactly as it was: every
persisted patient field, the conversation state included, and the whole
appointment table are unchanged. -/
theorem ferramentas_de_leitura_nao_escrevem
    (request : TriageRequest) (ext : TurnoExt) (db : DBState) (cal : CalendarState)
    (p : Paciente)
    (hfind : encontrarPaciente db (limparSenderId request.senderId) = some p)
    (hd : p.estado_conversa ≠ some "aguardando_data_agendamento")
    (hh : p.estado_conversa ≠ some "aguardando_escolha_horario")
    (hi : (classify_intent request.messageText).intent ≠ "SCHEDULE_APPOINTMENT") :
    (agente_router request ext db cal).db = db := by
  unfold agente_router
  simp only [hfind]
  rw [if_neg hd, if_neg hh]
  have hdesp : despachoPorIntencao p request.messageText db =
      if (classify_intent request.messageText).intent = "REQUEST_PRICE" then
        (some (ferramenta_consulta_preco p request.messageText), db)
      else if (classify_intent request.messageText).intent = "GREETING" then
        (some (ferramenta_saudacao p request.messageText), db)
      else (some (ferramenta_padrao p request.messageText), db) := by
    unfold despachoPorIntencao
    rw [if_neg hi]
  by_cases h1 : (classify_intent request.messageText).intent = "REQUEST_PRICE"
  · rw [hdesp, if_pos h1]
    exact finalizar_db _ _ _ _
  · by_cases h2 : (classify_intent request.messageText).intent = "GREETING"
    · rw [hdesp, if_neg h1, if_pos h2]
      exact finalizar_db _ _ _ _
    · rw [hdesp, if_neg h1, if_neg h2]
      exact finalizar_db _ _ _ _

/-- C10 witness: a price question from a patient with no flow state leaves
the database untouched. -/
theorem ferramentas_de_leitura_nao_escrevem_aplicado :
    (agente_router reqPreco extNeutro dbExemplo calVazio).db = dbExemplo :=
  ferramentas_de_leitura_nao_escrevem reqPreco extNeutro dbExemplo calVazio pacExemplo rfl
    (by decide) (by decide) (by decide)

/-- C9: when listing the external calendar fails with `HttpError`, the
availability computation swallows the error and returns the empty list —
the same value a fully booked 9:00–18:00 day produces — and a patient
awaiting a date is then told no slots are available for the day and asked
for a different date, staying in the awaiting-date state with the database
unchanged. -/
theorem indisponibilidade_em_queda_do_calendario
    (e : HttpErro) (paciente : Paciente) (mensagem : String) (ext : TurnoExt)
    (db : DBState) (d : DataCal)
    (hestado : paciente.estado_conversa = some "aguardando_data_agendamento")
    (hdata : ext.dataInterpretada = some d)
    (hlista : ext.listaEventos = .error e) :
    get_horarios_disponiveis ext.listaEventos = [] ∧
    get_horarios_disponiveis ext.listaEventos =
      get_horarios_disponiveis (.ok [⟨inicioJanela, fimJanela⟩]) ∧
    ferramenta_processar_data paciente mensagem ext db =
      (some ⟨"Puxa, não encontrei horários disponíveis para " ++ d.diaMes
          ++ ". Você gostaria de tentar outra data?", some "aguardando_data_agendamento"⟩,
        db) := by
  have h0 : get_horarios_disponiveis ext.listaEventos = [] := by rw [hlista]; rfl
  refine ⟨h0, by rw [h0]; decide, ?_⟩
  unfold ferramenta_processar_data
  rw [if_pos hestado]
  simp only [hdata, h0, ne_eq, not_true_eq_false, if_false]

def extQuedaHttp : TurnoExt := ⟨some ⟨2025, 6, 16⟩, .error .httpError, extTudoOk, 0⟩

def pacAguardaData : Paciente := ⟨1, "5511999999999", some "Ana Lima", 0, some "aguardando_data_agendamento"⟩

def dbAguardaData : DBState := ⟨[pacAguardaData], [], 2, 1⟩

/-- C9 witness: with a failing calendar listing, the awaiting-date patient
receives the no-slots reply for the resolved day. -/
theorem indisponibilidade_em_queda_do_calendario_aplicado :
    ferramenta_processar_data pacAguardaData "amanhã" extQuedaHttp dbAguardaData =
      (some ⟨"Puxa, não encontrei horários disponíveis para " ++ (DataCal.mk 2025 6 16).diaMes
          ++ ". Você gostaria de tentar outra data?", some "aguardando_data_agendamento"⟩,
        dbAguardaData) :=
  (indisponibilidade_em_queda_do_calendario .httpError pacAguardaData "amanhã" extQuedaHttp
    dbAguardaData ⟨2025, 6, 16⟩ rfl rfl rfl).2.2

def reqAmanha : TriageRequest := ⟨"5511999999999@c.us", some "Ana Lima", "amanhã", "2025-06-15T10:00:00Z"⟩

def extDiaLivre : TurnoExt := ⟨some ⟨2025, 6, 16⟩, .ok [], extTudoOk, 0⟩

def reqHorario : TriageRequest := ⟨"5511999999999@c.us", some "Ana Lima", "10:00", "2025-06-15T10:05:00Z"⟩

def dbAguardaEscolha : DBState :=
  ⟨[⟨1, "5511999999999", some "Ana Lima", 0, some "aguardando_escolha_horario"⟩], [], 2, 1⟩

/-- C2: the chosen date is NOT durably persisted.  In the turn that moves
the patient from awaiting-date to awaiting-slot-choice, the only committed
change is the state tag — the `Paciente` row has no column for the chosen
date, which was assigned only to a transient in-memory attribute.  On the
next turn the freshly loaded patient therefore has no booking context: the
handler's attribute read raises, the turn aborts with a 500 internal
error instead of combining the stored date with the sent time, and no
appointment is ever created on this path. -/
theorem contexto_de_data_nao_persistido :
    (agente_router reqAmanha extDiaLivre dbAguardaData calVazio).db = dbAguardaEscolha ∧
    (agente_router reqHorario extNeutro dbAguardaEscolha calVazio).resposta =
      .error (.internalError ("Erro ao processar a requisição: " ++ excecaoStr .attributeError)) ∧
    (agente_router reqHorario extNeutro dbAguardaEscolha calVazio).db = dbAguardaEscolha ∧
    (agente_router reqHorario extNeutro dbAguardaEscolha calVazio).db.agendamentos = [] := by
  exact ⟨rfl, rfl, rfl, rfl⟩

/-- With no in-memory booking context — the only way the router ever calls
it — `ferramenta_processar_horario` never consults the external booking
outcomes. -/
theorem ferramenta_processar_horario_none_ext (p : Paciente) (m : String)
    (r1 r2 : ResultadoExterno) (db : DBState) (cal : CalendarState) :
    ferramenta_processar_horario p none m r1 db cal =
      ferramenta_processar_horario p none m r2 db cal := by
  unfold ferramenta_processar_horario
  split <;> rfl

/-- A whole turn of the agent is independent of the injected booking
outcomes: the booking transaction — and with it any failure detail it
could surface — is unreachable from a turn, because the freshly loaded
patient row never carries the in-memory booking context. -/
theorem agente_router_ignora_reserva (request : TriageRequest) (ext : TurnoExt)
    (reserva2 : ResultadoExterno) (db : DBState) (cal : CalendarState) :
    agente_router request ext db cal =
      agente_router request { ext with reserva := reserva2 } db cal := by
  unfold agente_router
  split
  · rfl
  · rename_i paciente heq
    by_cases hd : paciente.estado_conversa = some "aguardando_data_agendamento"
    · rw [if_pos hd, if_pos hd]
      rfl
    · rw [if_neg hd, if_neg hd]
      by_cases hh : paciente.estado_conversa = some "aguardando_escolha_horario"
      · rw [if_pos hh, if_pos hh,
          ferramenta_processar_horario_none_ext paciente request.messageText
            ext.reserva reserva2 db cal]
      · rw [if_neg hh, if_neg hh]

/-- C8: in every turn, the failure details of the booking transaction can
never reach the conversational channel — the whole turn outcome is
independent of the injected booking outcomes, since the reloaded patient
never carries the in-memory booking context and the detail-echoing reply
of the slot-choice handler is therefore unreachable; and every turn that
ends in failure surfaces its internal detail only to the API caller: the
compatibility wrapper delivers on the conversational channel exactly the
fixed generic, polite, retry-inviting message, keeping `str(e)` in the
operator-facing `analysis` field. -/
theorem falhas_nao_vazam_detalhe_ao_usuario
    (request : TriageRequest) (ext : TurnoExt) (db : DBState) (cal : CalendarState) :
    (∀ reserva2, agente_router request ext db cal =
        agente_router request { ext with reserva := reserva2 } db cal) ∧
    (∀ e, (agente_router request ext db cal).resposta = .error e →
        (triage request ext db cal).responseText =
          "Desculpe, ocorreu um erro ao processar sua solicitação. Por favor, tente novamente mais tarde." ∧
        (triage request ext db cal).analysis = [("error", strHTTPException e.status e.detail)]) := by
  refine ⟨fun reserva2 => agente_router_ignora_reserva request ext reserva2 db cal, ?_⟩
  intro e he
  unfold triage
  rw [he]
  exact ⟨rfl, rfl⟩

/-- C8 witness: the failing slot-choice turn (the missing booking context)
delivers the generic retry message on the conversational channel while the
internal detail stays in the operator-facing field. -/
theorem falhas_nao_vazam_detalhe_ao_usuario_aplicado :
    (triage reqHorario extNeutro dbAguardaEscolha calVazio).responseText =
      "Desculpe, ocorreu um erro ao processar sua solicitação. Por favor, tente novamente mais tarde." :=
  ((falhas_nao_vazam_detalhe_ao_usuario reqHorario extNeutro dbAguardaEscolha calVazio).2
    (.internalError ("Erro ao processar a requisição: " ++ excecaoStr .attributeError)) rfl).1
